import Mathlib

/-
  Verification development for a room-based chat relay server.

  The server (src/backend/server.js) registers Socket.IO event handlers:
  joinRoom, chat-message, typing, stopTyping, disconnect.  Sessions are
  persisted via a Mongoose User model (username trimmed and required,
  room required, socketId required and unique) and chat messages via a
  Message model (timestamps).  The client page (src/unnamed/part_001)
  emits stopTyping before chat-message when the local typing flag is set.

  The embedding below models each handler as a pure function from a
  server state and event payload to the next state plus a trace of
  observable actions (persistence effects, group enrollment, unicasts
  and broadcasts), in the exact order the handler performs them.
  Persistence-layer failures (store unavailable) are injected through a
  FailSpec oracle, mirroring the try/catch structure of the handlers.
-/

namespace ChatApp

/-- A persisted session document (Mongoose User model): socketId is the
connection id, username is stored trimmed (schema trim), room as given. -/
structure Session where
  socketId : String
  username : String
  room : String
  deriving Repr, DecidableEq

/-- A persisted chat message document (Mongoose Message model); createdAt
is the logical timestamp assigned at insertion. -/
structure Message where
  username : String
  room : String
  text : String
  createdAt : Nat
  deriving Repr, DecidableEq

/-- Observable effects of a handler, in execution order: persistence
writes, Socket.IO group enrollment, unicasts and broadcasts. -/
inductive Action where
  | persistSession (s : Session)
  | joinGroup (socketId room : String)
  | emitHistory (target : String) (history : List Message)
  | emitMessage (target username text : String)
  | broadcastToRoom (room : String) (excludeId : Option String) (username text : String)
  | emitRoomUsers (room : String) (users : List String)
  | persistMessage (m : Message)
  | broadcastTyping (room excludeId username : String)
  | broadcastStopTyping (room excludeId username : String)
  | deleteSession (s : Session)
  deriving Repr, DecidableEq

/-- Server-side shared state: the User collection (sessions, in insertion
order), the Socket.IO broadcast-group membership (socketId, room),
the Message collection (insertion order) and a logical clock stamping
createdAt for new messages. -/
structure ServerState where
  sessions : List Session
  groups : List (String × String)
  messages : List Message
  clock : Nat
  deriving Repr, DecidableEq

/-- Failure-injection oracle for the persistence layer: whether
User.create, the history Message.find, or Message.create throws. -/
structure FailSpec where
  createFails : Bool
  historyFails : Bool
  saveFails : Bool
  deriving Repr, DecidableEq

def noFail : FailSpec := ⟨false, false, false⟩

def emptyState : ServerState := ⟨[], [], [], 0⟩

def serverName : String := "Server"

/-- JavaScript String.prototype.trim (also the Mongoose schema trim
setter): remove whitespace from both ends.  Written over the character
list so it evaluates by kernel reduction. -/
def jsTrim (s : String) : String :=
  String.mk (((s.data.dropWhile Char.isWhitespace).reverse.dropWhile Char.isWhitespace).reverse)

/-- User.findOne({socketId}): first session with the given connection id. -/
def findSession (st : ServerState) (sockId : String) : Option Session :=
  st.sessions.find? (fun s => s.socketId == sockId)

/-- emitRoomUsers payload: usernames of User.find({room}), in store order. -/
def occupants (st : ServerState) (room : String) : List String :=
  (st.sessions.filter (fun s => s.room == room)).map (fun s => s.username)

/-- The persisted messages of a room, in insertion (hence createdAt) order. -/
def roomMessages (st : ServerState) (room : String) : List Message :=
  st.messages.filter (fun m => m.room == room)

/-- Message.find({room}).sort(createdAt:-1).limit(50) followed by
.reverse(): the store returns newest-first (messages are appended with a
strictly increasing clock, so reverse insertion order is
createdAt-descending), limit keeps 50, and the handler reverses back to
oldest-first before delivery. -/
def historyFor (st : ServerState) (room : String) : List Message :=
  (((roomMessages st room).reverse).take 50).reverse

/-- User.create semantics from the UserSchema: username is trimmed by the
schema then must be non-empty (required), room and socketId must be
non-empty (required), and socketId carries a unique index, so a create
for an already-present connection id throws a duplicate-key error.
Returns the new state, or none when create throws. -/
def userCreate (st : ServerState) (sockId username room : String) : Option ServerState :=
  if jsTrim username = "" ∨ room = "" ∨ sockId = "" then none
  else if st.sessions.any (fun s => s.socketId == sockId) then none
  else some { st with sessions := st.sessions ++ [⟨sockId, jsTrim username, room⟩] }

/-- The joinRoom handler (server.js lines 69-101): validate presence of
username and room, persist the session, join the Socket.IO room, unicast
history then a welcome notice to the joiner, broadcast a join notice to
the others, emit the member list to the whole room.  Any thrown
persistence error is caught and answered with a generic failure notice
to the joiner only; effects already performed are not rolled back. -/
def joinRoom (fs : FailSpec) (st : ServerState) (sockId username room : String) :
    ServerState × List Action :=
  if username = "" ∨ room = "" then
    (st, [Action.emitMessage sockId serverName "Username and room are required."])
  else if fs.createFails then
    (st, [Action.emitMessage sockId serverName "Failed to join room. Please try again."])
  else
    match userCreate st sockId username room with
    | none =>
        (st, [Action.emitMessage sockId serverName "Failed to join room. Please try again."])
    | some st1 =>
        let st2 : ServerState := { st1 with groups := st1.groups ++ [(sockId, room)] }
        if fs.historyFails then
          (st2,
            [Action.persistSession ⟨sockId, jsTrim username, room⟩,
             Action.joinGroup sockId room,
             Action.emitMessage sockId serverName "Failed to join room. Please try again."])
        else
          (st2,
            [Action.persistSession ⟨sockId, jsTrim username, room⟩,
             Action.joinGroup sockId room,
             Action.emitHistory sockId (historyFor st2 room),
             Action.emitMessage sockId serverName
               ("Welcome to " ++ room ++ ", " ++ username ++ "!"),
             Action.broadcastToRoom room (some sockId) serverName
               (username ++ " has joined the chat."),
             Action.emitRoomUsers room (occupants st2 room)])

/-- The chat-message handler (server.js lines 110-136): trim the text and
drop silently if empty, resolve the session by socket id and drop
silently if absent, persist the message, broadcast it to the whole room
(sender included).  A thrown persistence error is caught and answered
with a failure notice to the sender only. -/
def chatMessage (fs : FailSpec) (st : ServerState) (sockId text : String) :
    ServerState × List Action :=
  let trimmed := jsTrim text
  if trimmed = "" then (st, [])
  else
    match findSession st sockId with
    | none => (st, [])
    | some user =>
        if fs.saveFails then
          (st, [Action.emitMessage sockId serverName "Failed to send message."])
        else
          let m : Message := ⟨user.username, user.room, trimmed, st.clock⟩
          ({ st with messages := st.messages ++ [m], clock := st.clock + 1 },
           [Action.persistMessage m,
            Action.broadcastToRoom user.room none m.username m.text])

/-- The typing handler (server.js lines 143-151): resolve the session,
drop silently if absent, broadcast to everyone else in the room. -/
def typingHandler (st : ServerState) (sockId : String) : ServerState × List Action :=
  match findSession st sockId with
  | none => (st, [])
  | some user => (st, [Action.broadcastTyping user.room sockId user.username])

/-- The stopTyping handler (server.js lines 154-162): same shape. -/
def stopTypingHandler (st : ServerState) (sockId : String) : ServerState × List Action :=
  match findSession st sockId with
  | none => (st, [])
  | some user => (st, [Action.broadcastStopTyping user.room sockId user.username])

/-- The disconnect handler (server.js lines 174-194):
User.findOneAndDelete({socketId}); if no session, terminate quietly;
otherwise broadcast a leave notice to the room and emit the updated
member list. -/
def disconnectHandler (st : ServerState) (sockId : String) : ServerState × List Action :=
  match findSession st sockId with
  | none => (st, [])
  | some user =>
      let st1 : ServerState :=
        { st with sessions := st.sessions.eraseP (fun s => s.socketId == sockId) }
      (st1,
       [Action.deleteSession user,
        Action.broadcastToRoom user.room none serverName
          (user.username ++ " has left the chat."),
        Action.emitRoomUsers user.room (occupants st1 user.room)])

/-- Client-to-server wire events, as emitted by the client page. -/
inductive ClientEvent where
  | joinRoomEvt (username room : String)
  | chatMessageEvt (text : String)
  | typingSignal
  | stopTypingSignal
  | disconnectEvt
  deriving Repr, DecidableEq

/-- Dispatch of one wire event to the matching server handler. -/
def handleEvent (fs : FailSpec) (st : ServerState) (sockId : String) :
    ClientEvent → ServerState × List Action
  | ClientEvent.joinRoomEvt username room => joinRoom fs st sockId username room
  | ClientEvent.chatMessageEvt text => chatMessage fs st sockId text
  | ClientEvent.typingSignal => typingHandler st sockId
  | ClientEvent.stopTypingSignal => stopTypingHandler st sockId
  | ClientEvent.disconnectEvt => disconnectHandler st sockId

/-- Events of one connection are processed in arrival order (spec section 5);
the traces concatenate. -/
def runEvents (fs : FailSpec) (st : ServerState) (sockId : String) :
    List ClientEvent → ServerState × List Action
  | [] => (st, [])
  | e :: es =>
      let r1 := handleEvent fs st sockId e
      let r2 := runEvents fs r1.1 sockId es
      (r2.1, r1.2 ++ r2.2)

/-- The client sendMessage handler (src/unnamed/part_001 lines 125-136):
trim the composer text and return if empty, call stopTyping (which emits
the stopTyping event exactly when the local typing flag is set), then
emit chat-message with the trimmed text. -/
def clientSendMessage (typingFlagged : Bool) (msg : String) : List ClientEvent :=
  let text := jsTrim msg
  if text = "" then []
  else
    (if typingFlagged then [ClientEvent.stopTypingSignal] else [])
      ++ [ClientEvent.chatMessageEvt text]

/-- Recognizer for a stop-typing broadcast in a trace. -/
def isStopTypingBroadcast : Action → Bool
  | Action.broadcastStopTyping _ _ _ => true
  | _ => false

/-- Recognizer for any room-wide broadcast in a trace. -/
def isRoomBroadcast : Action → Bool
  | Action.broadcastToRoom _ _ _ _ => true
  | Action.emitRoomUsers _ _ => true
  | Action.broadcastTyping _ _ _ => true
  | Action.broadcastStopTyping _ _ _ => true
  | _ => false

/-- Concrete state used by witnesses: one session for socket s1. -/
def stOneUser : ServerState := ⟨[⟨"s1", "ann", "r"⟩], [("s1", "r")], [], 0⟩

theorem any_eq_false_of_fresh {sockId : String} {l : List Session}
    (h : ∀ s ∈ l, (s.socketId == sockId) = false) :
    l.any (fun s => s.socketId == sockId) = false :=
  List.any_eq_false.mpr (fun s hs => by simp [h s hs])

theorem find_append_singleton {α : Type} {p : α → Bool} {l : List α} {a : α}
    (h : ∀ x ∈ l, p x = false) (ha : p a = true) :
    (l ++ [a]).find? p = some a := by
  rw [List.find?_append, List.find?_eq_none.mpr (fun x hx => by simp [h x hx])]
  simp [List.find?, ha]

theorem eraseP_append_singleton {α : Type} {p : α → Bool} {l : List α} {a : α}
    (h : ∀ x ∈ l, p x = false) (ha : p a = true) :
    (l ++ [a]).eraseP p = l := by
  rw [List.eraseP_append, if_neg]
  · simp [List.eraseP_cons, ha]
  · rw [Bool.not_eq_true, List.any_eq_false]
    intro x hx
    simp [h x hx]

/-- Full characterization of a successful joinRoom run: the state gains
the session and group enrollment, and the trace lists the six effects in
handler order. -/
theorem joinRoom_success_run
    (st : ServerState) (sockId username room : String)
    (hU : ¬ username = "") (hR : ¬ room = "") (hUt : ¬ jsTrim username = "")
    (hS : ¬ sockId = "")
    (hfresh : ∀ s ∈ st.sessions, (s.socketId == sockId) = false) :
    joinRoom noFail st sockId username room =
      ({ st with
          sessions := st.sessions ++ [⟨sockId, jsTrim username, room⟩],
          groups := st.groups ++ [(sockId, room)] },
       [Action.persistSession ⟨sockId, jsTrim username, room⟩,
        Action.joinGroup sockId room,
        Action.emitHistory sockId (historyFor st room),
        Action.emitMessage sockId serverName
          ("Welcome to " ++ room ++ ", " ++ username ++ "!"),
        Action.broadcastToRoom room (some sockId) serverName
          (username ++ " has joined the chat."),
        Action.emitRoomUsers room (occupants st room ++ [jsTrim username])]) := by
  have hany := any_eq_false_of_fresh hfresh
  simp [joinRoom, userCreate, noFail, hany, hU, hR, hUt, hS,
    historyFor, roomMessages, occupants, List.filter_append]

/-- If a joinRoom run left the session registry unchanged (persistence
did not succeed), then it also left the broadcast-group membership
unchanged: group enrollment happens only after the session persists. -/
theorem joinRoom_groups_unchanged_of_sessions_unchanged
    (fs : FailSpec) (st : ServerState) (sid u r : String)
    (h : (joinRoom fs st sid u r).1.sessions = st.sessions) :
    (joinRoom fs st sid u r).1.groups = st.groups := by
  by_cases h1 : u = "" ∨ r = ""
  · simp [joinRoom, h1]
  · by_cases h2 : fs.createFails
    · simp [joinRoom, h1, h2]
    · cases huc : userCreate st sid u r with
      | none => simp [joinRoom, h1, h2, huc]
      | some st1 =>
          exfalso
          have hsess : st1.sessions = st.sessions ++ [⟨sid, jsTrim u, r⟩] := by
            simp only [userCreate] at huc
            split at huc
            · cases huc
            · split at huc
              · cases huc
              · cases huc
                rfl
          have h2' : (joinRoom fs st sid u r).1.sessions = st1.sessions := by
            by_cases h3 : fs.historyFails <;> simp [joinRoom, h1, h2, huc, h3]
          rw [h, hsess] at h2'
          have hlen := congrArg List.length h2'
          simp [List.length_append] at hlen

/-- C1: a successful joinRoom performs its effects in exactly this fixed
order: persist the session, enroll the connection in the room group,
unicast the history to the joiner, unicast the welcome notice to the
joiner, broadcast the join notice to the other occupants, emit the
member list to the room; moreover, for every joinRoom run (any failure
injection), if the session registry is unchanged (persistence did not
succeed) then the broadcast-group membership is unchanged too — group
enrollment never happens before session persistence succeeds. -/
theorem joinRoom_effect_order
    (st : ServerState) (sockId username room : String)
    (hU : ¬ username = "") (hR : ¬ room = "") (hUt : ¬ jsTrim username = "")
    (hS : ¬ sockId = "")
    (hfresh : ∀ s ∈ st.sessions, (s.socketId == sockId) = false) :
    (joinRoom noFail st sockId username room).2 =
      [Action.persistSession ⟨sockId, jsTrim username, room⟩,
       Action.joinGroup sockId room,
       Action.emitHistory sockId (historyFor st room),
       Action.emitMessage sockId serverName
         ("Welcome to " ++ room ++ ", " ++ username ++ "!"),
       Action.broadcastToRoom room (some sockId) serverName
         (username ++ " has joined the chat."),
       Action.emitRoomUsers room (occupants st room ++ [jsTrim username])]
    ∧ (∀ (fs : FailSpec) (st2 : ServerState) (sid u r : String),
        (joinRoom fs st2 sid u r).1.sessions = st2.sessions →
        (joinRoom fs st2 sid u r).1.groups = st2.groups) := by
  refine ⟨?_, fun fs st2 sid u r h =>
    joinRoom_groups_unchanged_of_sessions_unchanged fs st2 sid u r h⟩
  rw [joinRoom_success_run st sockId username room hU hR hUt hS hfresh]

/-- Witness: the joinRoom effect-order theorem at a concrete fresh state. -/
theorem joinRoom_effect_order_witness :
    ((¬ ("ann" : String) = "") ∧ (¬ ("r" : String) = "") ∧
     (¬ jsTrim "ann" = "") ∧ (¬ ("s1" : String) = "") ∧
     (∀ s ∈ emptyState.sessions, (s.socketId == "s1") = false)) ∧
    ((joinRoom noFail emptyState "s1" "ann" "r").2 =
      [Action.persistSession ⟨"s1", jsTrim "ann", "r"⟩,
       Action.joinGroup "s1" "r",
       Action.emitHistory "s1" (historyFor emptyState "r"),
       Action.emitMessage "s1" serverName
         ("Welcome to " ++ "r" ++ ", " ++ "ann" ++ "!"),
       Action.broadcastToRoom "r" (some "s1") serverName
         ("ann" ++ " has joined the chat."),
       Action.emitRoomUsers "r" (occupants emptyState "r" ++ [jsTrim "ann"])]
    ∧ (∀ (fs : FailSpec) (st2 : ServerState) (sid u r : String),
        (joinRoom fs st2 sid u r).1.sessions = st2.sessions →
        (joinRoom fs st2 sid u r).1.groups = st2.groups)) :=
  ⟨⟨by decide, by decide, by decide, by decide, by decide⟩,
   joinRoom_effect_order emptyState "s1" "ann" "r"
     (by decide) (by decide) (by decide) (by decide) (by decide)⟩

/-- C4: a chat-message whose text is empty or whitespace-only after
trimming persists nothing and emits nothing: the handler returns the
state unchanged with an empty trace, under any failure injection. -/
theorem whitespace_message_silent_noop
    (fs : FailSpec) (st : ServerState) (sockId text : String)
    (h : jsTrim text = "") :
    chatMessage fs st sockId text = (st, []) := by
  simp [chatMessage, h]

/-- Witness: a whitespace-only send is a silent no-op at a concrete state. -/
theorem whitespace_message_silent_noop_witness :
    jsTrim "   " = "" ∧ chatMessage noFail stOneUser "s1" "   " = (stOneUser, []) :=
  ⟨by decide, whitespace_message_silent_noop noFail stOneUser "s1" "   " (by decide)⟩

/-- C9: events on a connection id with no registered session are silently
ignored: chat-message (any payload, any failure injection), typing,
stopTyping and disconnect all return the state unchanged with an empty
trace — nothing persisted, nothing emitted to anyone. -/
theorem unknown_connection_ignored
    (st : ServerState) (sockId : String)
    (h : findSession st sockId = none) :
    (∀ (fs : FailSpec) (text : String), chatMessage fs st sockId text = (st, []))
    ∧ typingHandler st sockId = (st, [])
    ∧ stopTypingHandler st sockId = (st, [])
    ∧ disconnectHandler st sockId = (st, []) := by
  refine ⟨fun fs text => ?_, ?_, ?_, ?_⟩ <;>
    simp [chatMessage, typingHandler, stopTypingHandler, disconnectHandler, h]

/-- Witness: events for the unknown socket z9 are ignored at a concrete state. -/
theorem unknown_connection_ignored_witness :
    findSession stOneUser "z9" = none ∧
    ((∀ (fs : FailSpec) (text : String),
        chatMessage fs stOneUser "z9" text = (stOneUser, []))
     ∧ typingHandler stOneUser "z9" = (stOneUser, [])
     ∧ stopTypingHandler stOneUser "z9" = (stOneUser, [])
     ∧ disconnectHandler stOneUser "z9" = (stOneUser, [])) :=
  ⟨by decide, unknown_connection_ignored stOneUser "z9" (by decide)⟩

/-- C10: the author username and target room of a persisted and broadcast
chat message come exclusively from the session registered for the
sending socket, never from client-controlled input: for any two payloads
on the same registered session, both broadcasts carry exactly the
session's username and room. -/
theorem message_identity_from_session
    (st : ServerState) (sockId t1 t2 : String) (u : Session)
    (hfind : findSession st sockId = some u)
    (h1 : ¬ jsTrim t1 = "") (h2 : ¬ jsTrim t2 = "") :
    (chatMessage noFail st sockId t1).2 =
      [Action.persistMessage ⟨u.username, u.room, jsTrim t1, st.clock⟩,
       Action.broadcastToRoom u.room none u.username (jsTrim t1)]
    ∧ (chatMessage noFail st sockId t2).2 =
      [Action.persistMessage ⟨u.username, u.room, jsTrim t2, st.clock⟩,
       Action.broadcastToRoom u.room none u.username (jsTrim t2)] := by
  constructor <;> simp [chatMessage, hfind, h1, h2, noFail]

/-- Witness: two different payloads from the same session broadcast with
the same session-derived username and room. -/
theorem message_identity_from_session_witness :
    (findSession stOneUser "s1" = some ⟨"s1", "ann", "r"⟩ ∧
     (¬ jsTrim "hi" = "") ∧ (¬ jsTrim "yo" = "")) ∧
    ((chatMessage noFail stOneUser "s1" "hi").2 =
      [Action.persistMessage ⟨"ann", "r", jsTrim "hi", stOneUser.clock⟩,
       Action.broadcastToRoom "r" none "ann" (jsTrim "hi")]
    ∧ (chatMessage noFail stOneUser "s1" "yo").2 =
      [Action.persistMessage ⟨"ann", "r", jsTrim "yo", stOneUser.clock⟩,
       Action.broadcastToRoom "r" none "ann" (jsTrim "yo")]) :=
  ⟨⟨by decide, by decide, by decide⟩,
   message_identity_from_session stOneUser "s1" "hi" "yo" ⟨"s1", "ann", "r"⟩
     (by decide) (by decide) (by decide)⟩

/-- The delivered history equals the final segment of the room's messages
in store order: reverse, take 50, reverse is the same as dropping all but
the last 50. -/
theorem historyFor_eq_drop (st : ServerState) (room : String) :
    historyFor st room =
      (roomMessages st room).drop ((roomMessages st room).length - 50) := by
  rw [historyFor, ← List.rtake_eq_reverse_take_reverse]
  rfl

/-- C3: on a successful join, the history unicast to the joiner (and to
the joiner only: it is the sole emitHistory action of the trace, and no
broadcast carries it) is exactly the last min(50, total) messages of the
room in store order — the store's newest-first result reversed to
oldest-first — and it is chronologically ascending whenever the store's
insertion order is. -/
theorem history_on_join
    (st : ServerState) (sockId username room : String)
    (hU : ¬ username = "") (hR : ¬ room = "") (hUt : ¬ jsTrim username = "")
    (hS : ¬ sockId = "")
    (hfresh : ∀ s ∈ st.sessions, (s.socketId == sockId) = false) :
    (joinRoom noFail st sockId username room).2 =
      [Action.persistSession ⟨sockId, jsTrim username, room⟩,
       Action.joinGroup sockId room,
       Action.emitHistory sockId
         ((roomMessages st room).drop ((roomMessages st room).length - 50)),
       Action.emitMessage sockId serverName
         ("Welcome to " ++ room ++ ", " ++ username ++ "!"),
       Action.broadcastToRoom room (some sockId) serverName
         (username ++ " has joined the chat."),
       Action.emitRoomUsers room (occupants st room ++ [jsTrim username])]
    ∧ ((roomMessages st room).drop ((roomMessages st room).length - 50)).length
        = min 50 (roomMessages st room).length
    ∧ (roomMessages st room).take ((roomMessages st room).length - 50)
        ++ (roomMessages st room).drop ((roomMessages st room).length - 50)
        = roomMessages st room
    ∧ (List.Sorted (fun a b => a.createdAt ≤ b.createdAt) (roomMessages st room) →
       List.Sorted (fun a b => a.createdAt ≤ b.createdAt)
         ((roomMessages st room).drop ((roomMessages st room).length - 50))) := by
  refine ⟨?_, ?_, List.take_append_drop _ _, fun hs => ?_⟩
  · rw [joinRoom_success_run st sockId username room hU hR hUt hS hfresh,
      ← historyFor_eq_drop]
  · rw [List.length_drop]
    omega
  · exact List.Pairwise.sublist (List.drop_sublist _ _) hs

/-- Witness: history delivery at a state with three stored messages, two
of them in the joined room. -/
theorem history_on_join_witness :
    ((¬ ("ann" : String) = "") ∧ (¬ ("r" : String) = "") ∧
     (¬ jsTrim "ann" = "") ∧ (¬ ("s1" : String) = "") ∧
     (∀ s ∈ (⟨[], [], [⟨"u", "r", "a", 0⟩, ⟨"v", "q", "b", 1⟩, ⟨"u", "r", "c", 2⟩],
        3⟩ : ServerState).sessions, (s.socketId == "s1") = false)) ∧
    ((joinRoom noFail
        ⟨[], [], [⟨"u", "r", "a", 0⟩, ⟨"v", "q", "b", 1⟩, ⟨"u", "r", "c", 2⟩], 3⟩
        "s1" "ann" "r").2 =
      [Action.persistSession ⟨"s1", jsTrim "ann", "r"⟩,
       Action.joinGroup "s1" "r",
       Action.emitHistory "s1"
         ((roomMessages
             ⟨[], [], [⟨"u", "r", "a", 0⟩, ⟨"v", "q", "b", 1⟩, ⟨"u", "r", "c", 2⟩], 3⟩
             "r").drop
           ((roomMessages
               ⟨[], [], [⟨"u", "r", "a", 0⟩, ⟨"v", "q", "b", 1⟩, ⟨"u", "r", "c", 2⟩], 3⟩
               "r").length - 50)),
       Action.emitMessage "s1" serverName
         ("Welcome to " ++ "r" ++ ", " ++ "ann" ++ "!"),
       Action.broadcastToRoom "r" (some "s1") serverName
         ("ann" ++ " has joined the chat."),
       Action.emitRoomUsers "r"
         (occupants
            ⟨[], [], [⟨"u", "r", "a", 0⟩, ⟨"v", "q", "b", 1⟩, ⟨"u", "r", "c", 2⟩], 3⟩
            "r" ++ [jsTrim "ann"])]
    ∧ ((roomMessages
          ⟨[], [], [⟨"u", "r", "a", 0⟩, ⟨"v", "q", "b", 1⟩, ⟨"u", "r", "c", 2⟩], 3⟩
          "r").drop
        ((roomMessages
            ⟨[], [], [⟨"u", "r", "a", 0⟩, ⟨"v", "q", "b", 1⟩, ⟨"u", "r", "c", 2⟩], 3⟩
            "r").length - 50)).length
        = min 50 (roomMessages
            ⟨[], [], [⟨"u", "r", "a", 0⟩, ⟨"v", "q", "b", 1⟩, ⟨"u", "r", "c", 2⟩], 3⟩
            "r").length
    ∧ (roomMessages
          ⟨[], [], [⟨"u", "r", "a", 0⟩, ⟨"v", "q", "b", 1⟩, ⟨"u", "r", "c", 2⟩], 3⟩
          "r").take
        ((roomMessages
            ⟨[], [], [⟨"u", "r", "a", 0⟩, ⟨"v", "q", "b", 1⟩, ⟨"u", "r", "c", 2⟩], 3⟩
            "r").length - 50)
        ++ (roomMessages
              ⟨[], [], [⟨"u", "r", "a", 0⟩, ⟨"v", "q", "b", 1⟩, ⟨"u", "r", "c", 2⟩], 3⟩
              "r").drop
            ((roomMessages
                ⟨[], [], [⟨"u", "r", "a", 0⟩, ⟨"v", "q", "b", 1⟩, ⟨"u", "r", "c", 2⟩], 3⟩
                "r").length - 50)
        = roomMessages
            ⟨[], [], [⟨"u", "r", "a", 0⟩, ⟨"v", "q", "b", 1⟩, ⟨"u", "r", "c", 2⟩], 3⟩
            "r"
    ∧ (List.Sorted (fun a b => a.createdAt ≤ b.createdAt)
         (roomMessages
            ⟨[], [], [⟨"u", "r", "a", 0⟩, ⟨"v", "q", "b", 1⟩, ⟨"u", "r", "c", 2⟩], 3⟩
            "r") →
       List.Sorted (fun a b => a.createdAt ≤ b.createdAt)
         ((roomMessages
             ⟨[], [], [⟨"u", "r", "a", 0⟩, ⟨"v", "q", "b", 1⟩, ⟨"u", "r", "c", 2⟩], 3⟩
             "r").drop
           ((roomMessages
               ⟨[], [], [⟨"u", "r", "a", 0⟩, ⟨"v", "q", "b", 1⟩, ⟨"u", "r", "c", 2⟩], 3⟩
               "r").length - 50)))) :=
  ⟨⟨by decide, by decide, by decide, by decide, by decide⟩,
   history_on_join
     ⟨[], [], [⟨"u", "r", "a", 0⟩, ⟨"v", "q", "b", 1⟩, ⟨"u", "r", "c", 2⟩], 3⟩
     "s1" "ann" "r" (by decide) (by decide) (by decide) (by decide) (by decide)⟩

/-- C8: a valid join followed immediately by a disconnect of the same
connection restores the session registry exactly, so the occupant set of
every room — in particular the joined room — is what it was before the
join: the join inserted exactly one session and the disconnect removed
exactly that session. -/
theorem join_then_disconnect_net_zero
    (st : ServerState) (sockId username room : String)
    (hU : ¬ username = "") (hR : ¬ room = "") (hUt : ¬ jsTrim username = "")
    (hS : ¬ sockId = "")
    (hfresh : ∀ s ∈ st.sessions, (s.socketId == sockId) = false) :
    (disconnectHandler (joinRoom noFail st sockId username room).1 sockId).1.sessions
      = st.sessions
    ∧ ∀ r, occupants
        (disconnectHandler (joinRoom noFail st sockId username room).1 sockId).1 r
        = occupants st r := by
  rw [joinRoom_success_run st sockId username room hU hR hUt hS hfresh]
  have her : List.eraseP (fun s => s.socketId == sockId)
      (st.sessions ++ [(⟨sockId, jsTrim username, room⟩ : Session)]) = st.sessions :=
    eraseP_append_singleton hfresh (by simp)
  have hfd : findSession
      ({ st with
          sessions := st.sessions ++ [(⟨sockId, jsTrim username, room⟩ : Session)],
          groups := st.groups ++ [(sockId, room)] }) sockId
      = some ⟨sockId, jsTrim username, room⟩ := by
    simp only [findSession]
    exact find_append_singleton hfresh (by simp)
  simp [disconnectHandler, hfd, her, occupants]

/-- Witness: join then disconnect at the empty state is a net no-op on
the registry and on every occupant set. -/
theorem join_then_disconnect_net_zero_witness :
    ((¬ ("ann" : String) = "") ∧ (¬ ("r" : String) = "") ∧
     (¬ jsTrim "ann" = "") ∧ (¬ ("s1" : String) = "") ∧
     (∀ s ∈ emptyState.sessions, (s.socketId == "s1") = false)) ∧
    ((disconnectHandler (joinRoom noFail emptyState "s1" "ann" "r").1 "s1").1.sessions
        = emptyState.sessions
     ∧ ∀ r, occupants
         (disconnectHandler (joinRoom noFail emptyState "s1" "ann" "r").1 "s1").1 r
         = occupants emptyState r) :=
  ⟨⟨by decide, by decide, by decide, by decide, by decide⟩,
   join_then_disconnect_net_zero emptyState "s1" "ann" "r"
     (by decide) (by decide) (by decide) (by decide) (by decide)⟩

/-- Characterization of a joinRoom run in which the history fetch throws
after User.create and socket.join succeeded: the failure notice is
unicast, nothing is broadcast, and the session and group enrollment
remain — the partial join is not rolled back. -/
theorem joinRoom_historyFail_run
    (st : ServerState) (sockId username room : String)
    (hU : ¬ username = "") (hR : ¬ room = "") (hUt : ¬ jsTrim username = "")
    (hS : ¬ sockId = "")
    (hfresh : ∀ s ∈ st.sessions, (s.socketId == sockId) = false) :
    joinRoom ⟨false, true, false⟩ st sockId username room =
      ({ st with
          sessions := st.sessions ++ [⟨sockId, jsTrim username, room⟩],
          groups := st.groups ++ [(sockId, room)] },
       [Action.persistSession ⟨sockId, jsTrim username, room⟩,
        Action.joinGroup sockId room,
        Action.emitMessage sockId serverName "Failed to join room. Please try again."]) := by
  have hany := any_eq_false_of_fresh hfresh
  simp [joinRoom, userCreate, hany, hU, hR, hUt, hS]

/-- C2 counterexample: for a history-fetch failure during joinRoom the
claimed invariance of shared state fails — the session created and the
group enrollment performed before the failing fetch remain visible. -/
theorem history_failure_leaves_partial_join :
    (joinRoom ⟨false, true, false⟩ emptyState "s1" "ann" "r").1 ≠ emptyState
    ∧ (joinRoom ⟨false, true, false⟩ emptyState "s1" "ann" "r").1.sessions
        = [⟨"s1", "ann", "r"⟩]
    ∧ (joinRoom ⟨false, true, false⟩ emptyState "s1" "ann" "r").1.groups
        = [("s1", "r")]
    ∧ (joinRoom ⟨false, true, false⟩ emptyState "s1" "ann" "r").2 =
        [Action.persistSession ⟨"s1", "ann", "r"⟩, Action.joinGroup "s1" "r",
         Action.emitMessage "s1" serverName "Failed to join room. Please try again."] := by
  decide

/-- C2 amended: a failing session create or message save unicasts the
generic failure notice to the originator only and leaves all shared
state unchanged; a failing history fetch likewise unicasts the notice
and performs no broadcast, but the session persisted and the group
enrollment performed before the fetch remain (the partial join is not
rolled back). -/
theorem persistence_failure_isolation
    (stj stc : ServerState) (sockId username room cid text : String) (u : Session)
    (hU : ¬ username = "") (hR : ¬ room = "") (hUt : ¬ jsTrim username = "")
    (hS : ¬ sockId = "")
    (hfresh : ∀ s ∈ stj.sessions, (s.socketId == sockId) = false)
    (hfind : findSession stc cid = some u) (ht : ¬ jsTrim text = "") :
    joinRoom ⟨true, false, false⟩ stj sockId username room =
      (stj, [Action.emitMessage sockId serverName
        "Failed to join room. Please try again."])
    ∧ chatMessage ⟨false, false, true⟩ stc cid text =
      (stc, [Action.emitMessage cid serverName "Failed to send message."])
    ∧ joinRoom ⟨false, true, false⟩ stj sockId username room =
      ({ stj with
          sessions := stj.sessions ++ [⟨sockId, jsTrim username, room⟩],
          groups := stj.groups ++ [(sockId, room)] },
       [Action.persistSession ⟨sockId, jsTrim username, room⟩,
        Action.joinGroup sockId room,
        Action.emitMessage sockId serverName "Failed to join room. Please try again."]) := by
  refine ⟨?_, ?_, joinRoom_historyFail_run stj sockId username room hU hR hUt hS hfresh⟩
  · simp [joinRoom, hU, hR]
  · simp [chatMessage, hfind, ht]

/-- Witness: persistence-failure isolation at concrete join and chat states. -/
theorem persistence_failure_isolation_witness :
    ((¬ ("ann" : String) = "") ∧ (¬ ("r" : String) = "") ∧
     (¬ jsTrim "ann" = "") ∧ (¬ ("s2" : String) = "") ∧
     (∀ s ∈ emptyState.sessions, (s.socketId == "s2") = false) ∧
     findSession stOneUser "s1" = some ⟨"s1", "ann", "r"⟩ ∧ (¬ jsTrim "hi" = "")) ∧
    (joinRoom ⟨true, false, false⟩ emptyState "s2" "ann" "r" =
      (emptyState, [Action.emitMessage "s2" serverName
        "Failed to join room. Please try again."])
    ∧ chatMessage ⟨false, false, true⟩ stOneUser "s1" "hi" =
      (stOneUser, [Action.emitMessage "s1" serverName "Failed to send message."])
    ∧ joinRoom ⟨false, true, false⟩ emptyState "s2" "ann" "r" =
      ({ emptyState with
          sessions := emptyState.sessions ++ [⟨"s2", jsTrim "ann", "r"⟩],
          groups := emptyState.groups ++ [("s2", "r")] },
       [Action.persistSession ⟨"s2", jsTrim "ann", "r"⟩,
        Action.joinGroup "s2" "r",
        Action.emitMessage "s2" serverName "Failed to join room. Please try again."])) :=
  ⟨⟨by decide, by decide, by decide, by decide, by decide, by decide, by decide⟩,
   persistence_failure_isolation emptyState stOneUser "s2" "ann" "r" "s1" "hi"
     ⟨"s1", "ann", "r"⟩ (by decide) (by decide) (by decide) (by decide)
     (by decide) (by decide) (by decide)⟩

/-- C5 counterexample: a joinRoom with a whitespace-only room is accepted:
the session is created with the whitespace room name, the connection
joins that broadcast group, and no InvalidJoin notice is emitted. -/
theorem whitespace_room_join_succeeds :
    (joinRoom noFail emptyState "s1" "ann" " ").1.sessions = [⟨"s1", "ann", " "⟩]
    ∧ (joinRoom noFail emptyState "s1" "ann" " ").1.groups = [("s1", " ")]
    ∧ (joinRoom noFail emptyState "s1" "ann" " ").2 ≠
        [Action.emitMessage "s1" serverName "Username and room are required."] := by
  decide

/-- C5 amended: the InvalidJoin notice is unicast exactly when username
or room is the empty string (state untouched); a whitespace-only
username passes that check but fails schema validation at User.create,
yielding the generic failure notice with no session and no group
enrollment; a whitespace-only room is accepted (see the counterexample). -/
theorem invalid_join_validation
    (st : ServerState) (sockId username room : String) :
    (username = "" ∨ room = "" →
      joinRoom noFail st sockId username room =
        (st, [Action.emitMessage sockId serverName "Username and room are required."]))
    ∧ (¬ username = "" → ¬ room = "" → jsTrim username = "" →
      joinRoom noFail st sockId username room =
        (st, [Action.emitMessage sockId serverName
          "Failed to join room. Please try again."])) := by
  constructor
  · intro h
    unfold joinRoom
    rw [if_pos h]
  · intro hU hR hUt
    simp [joinRoom, userCreate, hU, hR, hUt, noFail]

/-- Witness: empty username gives the InvalidJoin notice; whitespace-only
username gives the generic failure notice; both leave the state unchanged. -/
theorem invalid_join_validation_witness :
    joinRoom noFail emptyState "s1" "" "r" =
      (emptyState, [Action.emitMessage "s1" serverName
        "Username and room are required."])
    ∧ joinRoom noFail emptyState "s1" " " "r" =
      (emptyState, [Action.emitMessage "s1" serverName
        "Failed to join room. Please try again."]) :=
  ⟨(invalid_join_validation emptyState "s1" "" "r").1 (Or.inl rfl),
   (invalid_join_validation emptyState "s1" " " "r").2
     (by decide) (by decide) (by decide)⟩

/-- C6 counterexample: a second joinRoom on a connection id that already
holds a session does not insert or replace: it fails with the generic
failure notice and leaves the original session untouched. -/
theorem second_join_same_socket_fails :
    joinRoom noFail stOneUser "s1" "bob" "r2" =
      (stOneUser,
       [Action.emitMessage "s1" serverName "Failed to join room. Please try again."]) := by
  decide

/-- C6 amended: Open is not idempotent per connection id: for a
connection id already holding a session, any further joinRoom is
rejected by the unique socketId index with the generic failure notice
and changes nothing — at most one session per connection id is
maintained by rejection, not by replacement. -/
theorem reopen_rejected
    (st : ServerState) (sockId username room : String) (u : Session)
    (hU : ¬ username = "") (hR : ¬ room = "")
    (hmem : u ∈ st.sessions) (hid : u.socketId = sockId) :
    joinRoom noFail st sockId username room =
      (st, [Action.emitMessage sockId serverName
        "Failed to join room. Please try again."]) := by
  have hdup : st.sessions.any (fun s => s.socketId == sockId) = true :=
    List.any_eq_true.mpr ⟨u, hmem, by simp [hid]⟩
  have hnone : userCreate st sockId username room = none := by
    unfold userCreate
    by_cases hval : jsTrim username = "" ∨ room = "" ∨ sockId = ""
    · rw [if_pos hval]
    · rw [if_neg hval, if_pos hdup]
  simp [joinRoom, hU, hR, hnone, noFail]

/-- Witness: re-opening socket s1 (already bound to ann in room r) with
different credentials is rejected and the registry is unchanged. -/
theorem reopen_rejected_witness :
    ((¬ ("bob" : String) = "") ∧ (¬ ("r2" : String) = "") ∧
     (⟨"s1", "ann", "r"⟩ : Session) ∈ stOneUser.sessions ∧
     (⟨"s1", "ann", "r"⟩ : Session).socketId = "s1") ∧
    joinRoom noFail stOneUser "s1" "bob" "r2" =
      (stOneUser, [Action.emitMessage "s1" serverName
        "Failed to join room. Please try again."]) :=
  ⟨⟨by decide, by decide, by decide, by decide⟩,
   reopen_rejected stOneUser "s1" "bob" "r2" ⟨"s1", "ann", "r"⟩
     (by decide) (by decide) (by decide) (by decide)⟩

/-- C7 counterexample: the server's processing of a chat-message emits no
stop-typing broadcast: at a concrete state with a registered sender, the
chat-message trace is exactly the persist and message broadcast, and no
action of it is a stop-typing broadcast. -/
theorem chat_handler_emits_no_stop_typing :
    (chatMessage noFail stOneUser "s1" "hi").2 =
      [Action.persistMessage ⟨"ann", "r", "hi", 0⟩,
       Action.broadcastToRoom "r" none "ann" "hi"]
    ∧ ((chatMessage noFail stOneUser "s1" "hi").2.all
        (fun a => !(isStopTypingBroadcast a))) = true := by
  decide

/-- C7 amended: the stop-typing signal is emitted by the client, not by
the server's chat-message handler: when its typing flag is set, the
client sendMessage emits stopTyping before chat-message, and the server,
processing one connection's events in arrival order, broadcasts
stop-typing to the room strictly before the message broadcast. -/
theorem send_clears_typing_before_message
    (st : ServerState) (sockId msg : String) (u : Session)
    (hfind : findSession st sockId = some u)
    (hmsg : jsTrim msg = msg) (hne : ¬ msg = "") :
    (runEvents noFail st sockId (clientSendMessage true msg)).2 =
      [Action.broadcastStopTyping u.room sockId u.username,
       Action.persistMessage ⟨u.username, u.room, msg, st.clock⟩,
       Action.broadcastToRoom u.room none u.username msg] := by
  have ht : ¬ jsTrim msg = "" := by rw [hmsg]; exact hne
  simp [clientSendMessage, hmsg, hne, runEvents, handleEvent,
    stopTypingHandler, chatMessage, hfind, ht, noFail]

/-- Witness: a send from a typing-flagged client at a concrete state
produces the stop-typing broadcast strictly before the message broadcast. -/
theorem send_clears_typing_before_message_witness :
    (findSession stOneUser "s1" = some ⟨"s1", "ann", "r"⟩ ∧
     jsTrim "hi" = "hi" ∧ (¬ ("hi" : String) = "")) ∧
    (runEvents noFail stOneUser "s1" (clientSendMessage true "hi")).2 =
      [Action.broadcastStopTyping "r" "s1" "ann",
       Action.persistMessage ⟨"ann", "r", "hi", stOneUser.clock⟩,
       Action.broadcastToRoom "r" none "ann" "hi"] :=
  ⟨⟨by decide, by decide, by decide⟩,
   send_clears_typing_before_message stOneUser "s1" "hi" ⟨"s1", "ann", "r"⟩
     (by decide) (by decide) (by decide)⟩

end ChatApp
